import Mathlib

/-!
Verification of the VMware builder (`builder/vmware/builder.go`) against its
natural-language specification.  The Go source is shallowly embedded below:
`config`, `Prepare`, `Run`, `Cancel` and `newDriver` are translated from
`builder.go`; external collaborators that the source calls but whose code is
not part of the fragment (Go's `time.ParseDuration` and `filepath.Walk`, the
`multistep.BasicRunner`, the pipeline steps, the `Fusion5Driver.Verify`
filesystem probe, and the plugin host) are modelled from the specification's
description of their interface, each marked `Modelled from the spec:` in its
doc comment.
-/

/-! ## Durations: model of Go's `time.ParseDuration`

`Modelled from the spec:` the spec calls raw duration strings "resolved from
raw textual durations" with "the textual value's standard interpretation";
the standard interpretation is Go's `time.ParseDuration`, whose code is not
part of the source fragment.  A duration is an `Int` count of nanoseconds.
The accumulator is kept as an exact fraction instead of Go's `float64`;
for every value appearing in this development the two agree exactly. -/

/-- An exact unnormalised fraction; every value built below has a positive
power of ten as denominator. -/
structure Frac where
  num : Int
  den : Nat
deriving DecidableEq

def Frac.add (a b : Frac) : Frac :=
  { num := a.num * b.den + b.num * a.den, den := a.den * b.den }

def Frac.mulInt (a : Frac) (k : Int) : Frac := { num := a.num * k, den := a.den }

def Frac.neg (a : Frac) : Frac := { num := -a.num, den := a.den }

/-- Truncation toward zero, as Go's `float64 → int64` cast. -/
def Frac.trunc (a : Frac) : Int := a.num.tdiv (a.den : Int)

def nanosecond : Int := 1

def microsecond : Int := 1000

def millisecond : Int := 1000000

def second : Int := 1000000000

def minute : Int := 60000000000

def hour : Int := 3600000000000

/-- Unit suffix table of `time.ParseDuration` (ns, us/µs/μs, ms, s, m, h). -/
def unitMap : String → Option Int
  | "ns" => some nanosecond
  | "us" => some microsecond
  | "µs" => some microsecond
  | "μs" => some microsecond
  | "ms" => some millisecond
  | "s" => some second
  | "m" => some minute
  | "h" => some hour
  | _ => none

/-- `leadingInt`: consume a leading run of decimal digits, returning the value
and the rest.  `none` signals int64 overflow (Go detects it as wrap-around to
a negative value, which first happens when the value reaches `2 ^ 63`). -/
def leadingIntGo : Nat → List Char → Option (Nat × List Char)
  | x, [] => some (x, [])
  | x, c :: rest =>
    if c.isDigit then
      let x1 := x * 10 + (c.toNat - '0'.toNat)
      if x1 ≥ 2 ^ 63 then none else leadingIntGo x1 rest
    else some (x, c :: rest)

/-- Consume the unit suffix: every character up to the next digit or dot. -/
def consumeUnit : List Char → List Char × List Char
  | [] => ([], [])
  | c :: rest =>
    if c = '.' ∨ c.isDigit then ([], c :: rest)
    else
      let r := consumeUnit rest
      (c :: r.1, r.2)

/-- Main loop of `ParseDuration`: a sequence of `[0-9]*(\.[0-9]*)?unit`
components, summed.  A component with integer part `x` and fraction digits
`y` over `10 ^ digits` contributes `(x * 10 ^ digits + y) * unit` over
`10 ^ digits`.  `fuel` only bounds the recursion; each real iteration
consumes at least one character, so `s.length + 1` fuel never runs out. -/
def parseDurationLoop (orig : String) : Nat → List Char → Frac → Except String Frac
  | _, [], f => Except.ok f
  | 0, _ :: _, _ => Except.error ("time: invalid duration " ++ orig)
  | fuel + 1, c :: cs, f =>
    if ¬(c = '.' ∨ c.isDigit) then Except.error ("time: invalid duration " ++ orig)
    else
      let s := c :: cs
      match leadingIntGo 0 s with
      | none => Except.error ("time: invalid duration " ++ orig)
      | some (x, s1) =>
        let pre : Bool := decide (s1.length ≠ s.length)
        let fracStep : Option (Nat × Nat × List Char × Bool) :=
          match s1 with
          | '.' :: s2 =>
            match leadingIntGo 0 s2 with
            | none => none
            | some (y, s3) =>
              let digits := s2.length - s3.length
              some (y, digits, s3, decide (digits ≠ 0))
          | _ => some (0, 0, s1, false)
        match fracStep with
        | none => Except.error ("time: invalid duration " ++ orig)
        | some (y, digits, s4, post) =>
          let g : Frac := { num := (x * 10 ^ digits + y : Nat), den := 10 ^ digits }
          if ¬(pre ∨ post) then Except.error ("time: invalid duration " ++ orig)
          else
            let u := consumeUnit s4
            if u.1 = [] then Except.error ("time: missing unit in duration " ++ orig)
            else
              match unitMap (String.mk u.1) with
              | none =>
                Except.error ("time: unknown unit " ++ String.mk u.1 ++ " in duration " ++ orig)
              | some unit => parseDurationLoop orig fuel u.2 (f.add (g.mulInt unit))

/-- Go's `time.ParseDuration`: optional sign, the special case `"0"`, then
the component loop, a final int64 range check (exact here where Go compares
`float64`s), and truncation toward zero. -/
def parseDuration (str : String) : Except String Int :=
  let s0 := str.toList
  let signed : Bool × List Char :=
    match s0 with
    | '-' :: rest => (true, rest)
    | '+' :: rest => (false, rest)
    | _ => (false, s0)
  let neg := signed.1
  let s := signed.2
  if s = ['0'] then Except.ok 0
  else if s = [] then Except.error ("time: invalid duration " ++ str)
  else
    match parseDurationLoop str (s.length + 1) s { num := 0, den := 1 } with
    | Except.error e => Except.error e
    | Except.ok f0 =>
      let f : Frac := if neg then f0.neg else f0
      if f.num < -(2 ^ 63) * (f.den : Int) ∨ f.num > (2 ^ 63 - 1) * (f.den : Int) then
        Except.error ("time: invalid duration " ++ str)
      else Except.ok f.trunc

deriving instance DecidableEq for Except

/-! ## Configuration: the `config` struct of `builder.go`

Field for field the Go struct.  Go `uint` fields are `Nat` (only compared,
never arithmetically combined, so no wrap-around is observable);
`time.Duration` fields are `Int` nanosecond counts. -/

structure config where
  DiskName : String
  GuestOSType : String
  ISOUrl : String
  VMName : String
  OutputDir : String
  HTTPDir : String
  HTTPPortMin : Nat
  HTTPPortMax : Nat
  BootCommand : List String
  BootWait : Int
  ShutdownCommand : String
  ShutdownTimeout : Int
  SSHUser : String
  SSHPassword : String
  SSHWaitTimeout : Int
  VMXData : List (String × String)
  VNCPortMin : Nat
  VNCPortMax : Nat
  RawBootWait : String
  RawShutdownTimeout : String
  RawSSHWaitTimeout : String
deriving DecidableEq

/-- The fixed probe path of `Builder.newDriver`. -/
def fusionAppPath : String := "/Applications/VMware Fusion.app"

/-- The driver bound by `Builder.newDriver`: a `Fusion5Driver` at the fixed
path.  Its `Verify` filesystem probe is not part of the source fragment and
enters the model as the `verifyErr` argument of `Prepare` below. -/
structure Fusion5Driver where
  AppPath : String
deriving DecidableEq

/-- Result of `Builder.Prepare`: the mutated `b.config`, the bound
`b.driver` (none when `newDriver` failed), and the accumulated error
messages (`errs` in the source). -/
structure PrepareResult where
  config : config
  driver : Option Fusion5Driver
  errs : List String
deriving DecidableEq

/-- The defaulting block at the top of `Prepare`: each `if field == "" / 0`
assignment in the source touches a distinct field, so the sequential
assignments equal one simultaneous record update. -/
def applyDefaults (c : config) : config :=
  { c with
    DiskName := if c.DiskName = "" then "disk" else c.DiskName
    GuestOSType := if c.GuestOSType = "" then "other" else c.GuestOSType
    VMName := if c.VMName = "" then "packer" else c.VMName
    HTTPPortMin := if c.HTTPPortMin = 0 then 8000 else c.HTTPPortMin
    HTTPPortMax := if c.HTTPPortMax = 0 then 9000 else c.HTTPPortMax
    VNCPortMin := if c.VNCPortMin = 0 then 5900 else c.VNCPortMin
    VNCPortMax := if c.VNCPortMax = 0 then 6000 else c.VNCPortMax
    OutputDir := if c.OutputDir = "" then "vmware" else c.OutputDir }

/-- The config mutations of `Prepare` after defaulting, in source order:
`BootWait` is parsed only when `RawBootWait` is non-empty; empty
`RawShutdownTimeout` / `RawSSHWaitTimeout` are first rewritten to `"5m"` /
`"20m"` and then parsed unconditionally.  A failed `time.ParseDuration`
returns 0, which Go assigns to the field alongside the error. -/
def prepareConfig (c0 : config) : config :=
  let c1 := applyDefaults c0
  let c2 := { c1 with
    BootWait :=
      if c1.RawBootWait ≠ "" then
        match parseDuration c1.RawBootWait with
        | Except.ok d => d
        | Except.error _ => 0
      else c1.BootWait }
  let c3 := { c2 with
    RawShutdownTimeout := if c2.RawShutdownTimeout = "" then "5m" else c2.RawShutdownTimeout }
  let c4 := { c3 with
    ShutdownTimeout :=
      match parseDuration c3.RawShutdownTimeout with
      | Except.ok d => d
      | Except.error _ => 0 }
  let c5 := { c4 with
    RawSSHWaitTimeout := if c4.RawSSHWaitTimeout = "" then "20m" else c4.RawSSHWaitTimeout }
  { c5 with
    SSHWaitTimeout :=
      match parseDuration c5.RawSSHWaitTimeout with
      | Except.ok d => d
      | Except.error _ => 0 }

def httpPortRangeMsg : String := "http_port_min must be less than http_port_max"

def isoURLMsg : String := "An iso_url must be specified."

def sshUserMsg : String := "An ssh_username must be specified."

def vncPortRangeMsg : String := "vnc_port_min must be less than vnc_port_max"

/-- The `errs` accumulator of `Prepare`, evaluated on the defaulted and
raw-resolved config `c` (every condition in the source reads fields that the
interleaved assignments never change, so evaluating them all on the final
config is equivalent); the appends occur in source order.  `verifyErr` is
the outcome of `Fusion5Driver.Verify` inside `newDriver`. -/
def prepareErrs (c : config) (verifyErr : Option String) : List String :=
  (if c.HTTPPortMin > c.HTTPPortMax then [httpPortRangeMsg] else [])
    ++ (if c.ISOUrl = "" then [isoURLMsg] else [])
    ++ (if c.SSHUser = "" then [sshUserMsg] else [])
    ++ (if c.RawBootWait ≠ "" then
          match parseDuration c.RawBootWait with
          | Except.ok _ => []
          | Except.error e => ["Failed parsing boot_wait: " ++ e]
        else [])
    ++ (match parseDuration c.RawShutdownTimeout with
        | Except.ok _ => []
        | Except.error e => ["Failed parsing shutdown_timeout: " ++ e])
    ++ (match parseDuration c.RawSSHWaitTimeout with
        | Except.ok _ => []
        | Except.error e => ["Failed parsing ssh_wait_timeout: " ++ e])
    ++ (if c.VNCPortMin > c.VNCPortMax then [vncPortRangeMsg] else [])
    ++ (match verifyErr with
        | none => []
        | some e => ["Failed creating VMware driver: " ++ e])

/-- `Builder.Prepare` after `mapstructure.Decode`: `c0` is the decoded raw
configuration; `verifyErr` the result of the driver's `Verify` probe
(`Modelled from the spec:` the probe for a locally installed virtualization
product, whose code is outside the fragment). -/
def Prepare (c0 : config) (verifyErr : Option String) : PrepareResult :=
  { config := prepareConfig c0
    driver :=
      match verifyErr with
      | none => some { AppPath := fusionAppPath }
      | some _ => none
    errs := prepareErrs (prepareConfig c0) verifyErr }

/-- The return value of `Prepare`: `&packer.MultiError{errs}` when `errs` is
non-empty, `nil` otherwise.  A `MultiError` is its list of messages. -/
def PrepareReturn (r : PrepareResult) : Option (List String) :=
  if r.errs.length > 0 then some r.errs else none

/-! ## The state bag, steps, and the runner

`Run` builds a fresh `map[string]interface{}` state bag and hands it to a
fresh `multistep.BasicRunner`.  The claims only observe the two sentinel
keys `multistep.StateCancelled` / `multistep.StateHalted`, so the bag is
modelled by their presence flags. -/

structure State where
  cancelled : Bool
  halted : Bool
deriving DecidableEq

/-- The fresh state bag made at the top of `Run` (no sentinel keys set). -/
def initialState : State := { cancelled := false, halted := false }

/-- What a step's `Run` returns: `multistep.ActionContinue` or
`multistep.ActionHalt`. -/
inductive StepAction where
  | cont : StepAction
  | halt : StepAction

/-- `Modelled from the spec:` a pipeline Step, "a polymorphic type with two
operations, run and cleanup, over the shared context".  Only the forward
pass is observed by the claims, so a step is its run operation: it may
rewrite the state bag and answers continue or halt. -/
structure Step where
  run : State → State × StepAction

/-- `Modelled from the spec:` the forward pass of `multistep.BasicRunner`
(§4.2): "For each Step in order: if the context is already cancelled or
halted, stop advancing (do not run remaining steps). Otherwise invoke the
Step's run operation ... If run signals a fatal condition, mark the context
halted and stop advancing."  Returns the final state and how many steps had
their run operation invoked. -/
def runForward : List Step → State → State × Nat
  | [], s => (s, 0)
  | step :: rest, s =>
    if s.cancelled ∨ s.halted then (s, 0)
    else
      match step.run s with
      | (s1, StepAction.halt) => ({ s1 with halted := true }, 1)
      | (s1, StepAction.cont) =>
        let r := runForward rest s1
        (r.1, r.2 + 1)

/-- `Modelled from the spec:` the handle `b.runner` keeps on a
`multistep.BasicRunner`; its `Cancel` "marks the context cancelled"
(§4.2), modelled as a flag on the handle. -/
structure RunnerHandle where
  cancelled : Bool
deriving DecidableEq

/-- The `Builder` struct: its config, the driver bound by `Prepare`, and
the runner, which is nil until `Run` assigns one. -/
structure Builder where
  config : config
  driver : Option Fusion5Driver
  runner : Option RunnerHandle

/-- `Builder.Cancel`: `if b.runner != nil { b.runner.Cancel() }` — a no-op
while the runner is nil, otherwise the runner marks cancellation. -/
def Builder.Cancel (b : Builder) : Builder :=
  match b.runner with
  | none => b
  | some r => { b with runner := some { r with cancelled := true } }

/-- The `Artifact` of a build: `&Artifact{b.config.OutputDir, files}`. -/
structure Artifact where
  dir : String
  files : List String
deriving DecidableEq

/-- Everything `Builder.Run` leaves behind: the builder (runner now
assigned), the final state bag, the number of step run invocations, the
returned artifact (`none` = Go `nil`), and the messages sent to
`ui.Error`. -/
structure RunOutcome where
  finalState : State
  executed : Nat
  artifact : Option Artifact
  uiErrors : List String

/-- `Builder.Run`: build a fresh state bag, run the fixed step sequence
through a fresh `BasicRunner`, then return nil if the `StateCancelled` or
`StateHalted` key is present; otherwise compile the file list by walking
the output directory (its outcome is the `walk` argument; the walk is a
filesystem effect) and return the artifact, or log the walk error and
return nil.  `steps` stands for the fixed ten-step pipeline, whose
behaviours are `Modelled from the spec:` as arbitrary `Step` values. -/
def Builder.Run (b : Builder) (steps : List Step)
    (walk : Except String (List String)) : Builder × RunOutcome :=
  let b1 : Builder := { b with runner := some { cancelled := false } }
  let r := runForward steps initialState
  let final := r.1
  let n := r.2
  if final.cancelled then (b1, { finalState := final, executed := n, artifact := none, uiErrors := [] })
  else if final.halted then (b1, { finalState := final, executed := n, artifact := none, uiErrors := [] })
  else
    match walk with
    | Except.error e =>
      (b1, { finalState := final, executed := n, artifact := none,
             uiErrors := ["Error collecting result files: " ++ e] })
    | Except.ok files =>
      (b1, { finalState := final, executed := n,
             artifact := some { dir := b.config.OutputDir, files := files }, uiErrors := [] })

/-! ## The filesystem walk

`Modelled from the spec:` `Run` "walks the output directory"; the walk is
Go's `filepath.Walk`, which visits the root and every file and directory
under it, children of a directory in lexical order.  The `visit` callback
in `Run` appends every visited path to `files`.  A directory tree carries
its children already in the order the walk reads them. -/

inductive FSNode where
  | file : String → FSNode
  | dir : String → List FSNode → FSNode

def FSNode.name : FSNode → String
  | FSNode.file n => n
  | FSNode.dir n _ => n

mutual

/-- The paths `filepath.Walk` hands to the callback for the tree rooted at
`path`: the root itself, then each child subtree under `path/childname`. -/
def walkPaths : String → FSNode → List String
  | path, FSNode.file _ => [path]
  | path, FSNode.dir _ children => path :: walkChildren path children

def walkChildren : String → List FSNode → List String
  | _, [] => []
  | path, child :: rest =>
    walkPaths (path ++ "/" ++ child.name) child ++ walkChildren path rest

end

/-- `Modelled from the spec:` the plugin host that drives a Builder
("build never starts" on configuration errors, §7): it invokes `Run` only
when `Prepare` returned nil, and the number of pipeline steps executed is
zero otherwise. -/
def hostExecutedSteps (r : PrepareResult) (b : Builder) (steps : List Step)
    (walk : Except String (List String)) : Nat :=
  match PrepareReturn r with
  | some _ => 0
  | none => (Builder.Run b steps walk).2.executed

/-! ## Concrete fixtures used by witnesses and counterexamples -/

/-- A decoded raw configuration with every option absent (zero values). -/
def emptyConfig : config :=
  { DiskName := "", GuestOSType := "", ISOUrl := "", VMName := "", OutputDir := ""
    HTTPDir := "", HTTPPortMin := 0, HTTPPortMax := 0, BootCommand := [], BootWait := 0
    ShutdownCommand := "", ShutdownTimeout := 0, SSHUser := "", SSHPassword := ""
    SSHWaitTimeout := 0, VMXData := [], VNCPortMin := 0, VNCPortMax := 0
    RawBootWait := "", RawShutdownTimeout := "", RawSSHWaitTimeout := "" }

/-- A minimal valid raw configuration (required fields set). -/
def validConfig : config := { emptyConfig with ISOUrl := "http://host/os.iso", SSHUser := "user" }

/-- A step whose run leaves the bag alone and continues. -/
def contStep : Step := { run := fun s => (s, StepAction.cont) }

/-- A step whose run leaves the bag alone and signals a fatal condition. -/
def haltStep : Step := { run := fun s => (s, StepAction.halt) }

/-- A step whose run marks the bag cancelled (a step observing an external
cancellation request) and continues. -/
def cancelStep : Step := { run := fun s => ({ s with cancelled := true }, StepAction.cont) }

/-- Stand-in for the fixed ten-step pipeline in an environment where every
step succeeds. -/
def trivialPipeline : List Step := List.replicate 10 contStep

/-- A Builder as it stands right after a successful `Prepare`, before `Run`
was ever called: the runner field is still nil. -/
def freshBuilder : Builder :=
  { config := (Prepare validConfig none).config
    driver := some { AppPath := fusionAppPath }
    runner := none }

/-- Fixture for C6: the builder run with output directory "d". -/
def dOutputBuilder : Builder :=
  { config := (Prepare { validConfig with OutputDir := "d" } none).config
    driver := some { AppPath := fusionAppPath }
    runner := none }

/-- Fixture for C6: the file tree with files a and b/c under directory d. -/
def c6tree : FSNode := FSNode.dir "d" [FSNode.file "a", FSNode.dir "b" [FSNode.file "c"]]

/-- Fixture for C3: inverted HTTP port range (9500 over the defaulted max of
9000), missing iso_url and ssh_username, and an unparseable boot_wait. -/
def badConfig : config :=
  { emptyConfig with HTTPPortMin := 9500, RawBootWait := "zz" }

/-- Fixture for C5: a configuration Prepare accepts whose boot_wait is the
valid but negative duration string -1s. -/
def negativeBootConfig : config := { validConfig with RawBootWait := "-1s" }

/-! ## Helper lemmas -/

/-- In every branch of `Run`, the reported final state is the state the
runner left behind. -/
theorem Run_finalState (b : Builder) (steps : List Step) (walk : Except String (List String)) :
    (Builder.Run b steps walk).2.finalState = (runForward steps initialState).1 := by
  dsimp only [Builder.Run]
  split
  · rfl
  · split
    · rfl
    · cases walk <;> rfl

/-- Projection of `prepareConfig`: `ISOUrl` is never rewritten. -/
theorem prepareConfig_ISOUrl (c : config) : (prepareConfig c).ISOUrl = c.ISOUrl := rfl

/-- Projection of `prepareConfig`: `SSHUser` is never rewritten. -/
theorem prepareConfig_SSHUser (c : config) : (prepareConfig c).SSHUser = c.SSHUser := rfl

/-- Projection of `prepareConfig`: `RawBootWait` is never rewritten. -/
theorem prepareConfig_RawBootWait (c : config) : (prepareConfig c).RawBootWait = c.RawBootWait := rfl

/-- Projection of `prepareConfig`: the stored raw shutdown timeout after the
empty-string default. -/
theorem prepareConfig_RawShutdownTimeout (c : config) :
    (prepareConfig c).RawShutdownTimeout =
      (if c.RawShutdownTimeout = "" then "5m" else c.RawShutdownTimeout) := rfl

/-- Projection of `prepareConfig`: the stored raw SSH wait timeout after the
empty-string default. -/
theorem prepareConfig_RawSSHWaitTimeout (c : config) :
    (prepareConfig c).RawSSHWaitTimeout =
      (if c.RawSSHWaitTimeout = "" then "20m" else c.RawSSHWaitTimeout) := rfl

/-- Projection of `prepareConfig`: `BootWait` is the parse of a non-empty
`RawBootWait`, otherwise the decoded value. -/
theorem prepareConfig_BootWait (c : config) :
    (prepareConfig c).BootWait =
      (if c.RawBootWait ≠ "" then
        match parseDuration c.RawBootWait with
        | Except.ok d => d
        | Except.error _ => 0
      else c.BootWait) := rfl

/-- Projection of `prepareConfig`: `ShutdownTimeout` is the parse of the
resolved raw value. -/
theorem prepareConfig_ShutdownTimeout (c : config) :
    (prepareConfig c).ShutdownTimeout =
      (match parseDuration (prepareConfig c).RawShutdownTimeout with
        | Except.ok d => d
        | Except.error _ => 0) := rfl

/-- Projection of `prepareConfig`: `SSHWaitTimeout` is the parse of the
resolved raw value. -/
theorem prepareConfig_SSHWaitTimeout (c : config) :
    (prepareConfig c).SSHWaitTimeout =
      (match parseDuration (prepareConfig c).RawSSHWaitTimeout with
        | Except.ok d => d
        | Except.error _ => 0) := rfl

/-- The inverted-HTTP-range message is accumulated whenever the defaulted
bounds are inverted. -/
theorem mem_prepareErrs_http (c : config) (v : Option String)
    (h : c.HTTPPortMin > c.HTTPPortMax) : httpPortRangeMsg ∈ prepareErrs c v := by
  simp [prepareErrs, h]

/-- The inverted-VNC-range message is accumulated whenever the defaulted
bounds are inverted. -/
theorem mem_prepareErrs_vnc (c : config) (v : Option String)
    (h : c.VNCPortMin > c.VNCPortMax) : vncPortRangeMsg ∈ prepareErrs c v := by
  simp [prepareErrs, h]

/-- The missing-iso_url message is accumulated whenever `ISOUrl` is empty. -/
theorem mem_prepareErrs_iso (c : config) (v : Option String)
    (h : c.ISOUrl = "") : isoURLMsg ∈ prepareErrs c v := by
  simp [prepareErrs, h]

/-- The missing-ssh_username message is accumulated whenever `SSHUser` is
empty. -/
theorem mem_prepareErrs_ssh (c : config) (v : Option String)
    (h : c.SSHUser = "") : sshUserMsg ∈ prepareErrs c v := by
  simp [prepareErrs, h]

/-- A failed boot_wait parse is accumulated. -/
theorem mem_prepareErrs_boot (c : config) (v : Option String) (e : String)
    (hne : c.RawBootWait ≠ "") (hp : parseDuration c.RawBootWait = Except.error e) :
    ("Failed parsing boot_wait: " ++ e) ∈ prepareErrs c v := by
  simp [prepareErrs, hne, hp]

/-- A failed shutdown_timeout parse is accumulated. -/
theorem mem_prepareErrs_shutdown (c : config) (v : Option String) (e : String)
    (hp : parseDuration c.RawShutdownTimeout = Except.error e) :
    ("Failed parsing shutdown_timeout: " ++ e) ∈ prepareErrs c v := by
  simp [prepareErrs, hp]

/-- A failed ssh_wait_timeout parse is accumulated. -/
theorem mem_prepareErrs_sshwait (c : config) (v : Option String) (e : String)
    (hp : parseDuration c.RawSSHWaitTimeout = Except.error e) :
    ("Failed parsing ssh_wait_timeout: " ++ e) ∈ prepareErrs c v := by
  simp [prepareErrs, hp]

/-- A failed driver verification is accumulated. -/
theorem mem_prepareErrs_driver (c : config) (e : String) :
    ("Failed creating VMware driver: " ++ e) ∈ prepareErrs c (some e) := by
  simp [prepareErrs]

/-- `Prepare` returns the aggregate `MultiError` whenever any message was
accumulated. -/
theorem PrepareReturn_of_mem (r : PrepareResult) (m : String) (h : m ∈ r.errs) :
    PrepareReturn r = some r.errs := by
  unfold PrepareReturn
  rw [if_pos]
  exact List.length_pos.mpr (List.ne_nil_of_mem h)

/-! ## Claims -/

/-- C1 (counterexample): the claim that a `Cancel` issued before `Run` makes
the subsequent run execute zero steps and return no artifact is false: with
the runner field still nil, `Cancel` does nothing, and the subsequent `Run`
(here in an environment where every step succeeds and the walk returns one
file) invokes all ten step run operations and returns an artifact. -/
theorem c1_counterexample :
    (Builder.Run (Builder.Cancel freshBuilder) trivialPipeline
        (Except.ok ["vmware/disk.vmdk"])).2.executed = 10 ∧
    (Builder.Run (Builder.Cancel freshBuilder) trivialPipeline
        (Except.ok ["vmware/disk.vmdk"])).2.artifact =
      some { dir := "vmware", files := ["vmware/disk.vmdk"] } := by
  constructor
  · decide
  · decide

/-- C1 (amended): calling `Cancel` before `Run` has started is a no-op —
`b.runner` is still nil, so the guard in `Cancel` skips the runner call —
and the subsequent `Run`, which builds a fresh state bag and a fresh
runner, behaves exactly as if `Cancel` had never been called. -/
theorem c1_cancel_before_run_is_noop (b : Builder) (h : b.runner = none)
    (steps : List Step) (walk : Except String (List String)) :
    Builder.Cancel b = b ∧
      Builder.Run (Builder.Cancel b) steps walk = Builder.Run b steps walk := by
  have hc : Builder.Cancel b = b := by
    unfold Builder.Cancel
    rw [h]
  exact ⟨hc, by rw [hc]⟩

/-- C1 (witness): the amended statement at the fresh builder. -/
theorem c1_witness :
    freshBuilder.runner = none ∧
    (Builder.Cancel freshBuilder = freshBuilder ∧
      Builder.Run (Builder.Cancel freshBuilder) trivialPipeline (Except.ok []) =
        Builder.Run freshBuilder trivialPipeline (Except.ok [])) :=
  ⟨rfl, c1_cancel_before_run_is_noop freshBuilder rfl trivialPipeline (Except.ok [])⟩

/-- C2: `Run` returns an artifact only if the state the runner left behind
carries neither the cancelled nor the halted marker: if either marker is
present, `Run` returns nil. -/
theorem c2_no_artifact_when_cancelled_or_halted (b : Builder) (steps : List Step)
    (walk : Except String (List String))
    (h : (Builder.Run b steps walk).2.finalState.cancelled = true ∨
         (Builder.Run b steps walk).2.finalState.halted = true) :
    (Builder.Run b steps walk).2.artifact = none := by
  rw [Run_finalState] at h
  by_cases hc : (runForward steps initialState).1.cancelled
  · simp [Builder.Run, hc]
  · by_cases hh : (runForward steps initialState).1.halted
    · simp [Builder.Run, hc, hh]
    · simp [hc, hh] at h

/-- C2 (witness): a pipeline whose single step halts yields no artifact. -/
theorem c2_witness :
    (Builder.Run freshBuilder [haltStep] (Except.ok [])).2.artifact = none :=
  c2_no_artifact_when_cancelled_or_halted freshBuilder [haltStep] (Except.ok [])
    (Or.inr (by decide))

/-- C3: whenever the defaulted port ranges are inverted, `Prepare` fails
with the aggregate `MultiError`, the inverted range is named in it, and
every other independent violation present — missing iso_url, missing
ssh_username, unparseable durations, a failed driver probe — is reported in
the same single result. -/
theorem c3_range_violation_aggregated (c : config) (v : Option String)
    (hrange : (Prepare c v).config.HTTPPortMin > (Prepare c v).config.HTTPPortMax ∨
              (Prepare c v).config.VNCPortMin > (Prepare c v).config.VNCPortMax) :
    PrepareReturn (Prepare c v) = some (Prepare c v).errs ∧
    ((Prepare c v).config.HTTPPortMin > (Prepare c v).config.HTTPPortMax →
      httpPortRangeMsg ∈ (Prepare c v).errs) ∧
    ((Prepare c v).config.VNCPortMin > (Prepare c v).config.VNCPortMax →
      vncPortRangeMsg ∈ (Prepare c v).errs) ∧
    (c.ISOUrl = "" → isoURLMsg ∈ (Prepare c v).errs) ∧
    (c.SSHUser = "" → sshUserMsg ∈ (Prepare c v).errs) ∧
    (∀ e, c.RawBootWait ≠ "" → parseDuration c.RawBootWait = Except.error e →
      ("Failed parsing boot_wait: " ++ e) ∈ (Prepare c v).errs) ∧
    (∀ e, parseDuration (Prepare c v).config.RawShutdownTimeout = Except.error e →
      ("Failed parsing shutdown_timeout: " ++ e) ∈ (Prepare c v).errs) ∧
    (∀ e, parseDuration (Prepare c v).config.RawSSHWaitTimeout = Except.error e →
      ("Failed parsing ssh_wait_timeout: " ++ e) ∈ (Prepare c v).errs) ∧
    (∀ e, v = some e → ("Failed creating VMware driver: " ++ e) ∈ (Prepare c v).errs) := by
  have hmem : httpPortRangeMsg ∈ (Prepare c v).errs ∨ vncPortRangeMsg ∈ (Prepare c v).errs := by
    rcases hrange with h | h
    · exact Or.inl (mem_prepareErrs_http _ v h)
    · exact Or.inr (mem_prepareErrs_vnc _ v h)
  refine ⟨?_, ?_, ?_, ?_, ?_, ?_, ?_, ?_, ?_⟩
  · rcases hmem with h | h
    · exact PrepareReturn_of_mem _ _ h
    · exact PrepareReturn_of_mem _ _ h
  · exact fun h => mem_prepareErrs_http _ v h
  · exact fun h => mem_prepareErrs_vnc _ v h
  · intro h
    exact mem_prepareErrs_iso _ v (by rw [prepareConfig_ISOUrl]; exact h)
  · intro h
    exact mem_prepareErrs_ssh _ v (by rw [prepareConfig_SSHUser]; exact h)
  · intro e hne hp
    exact mem_prepareErrs_boot _ v e (by rw [prepareConfig_RawBootWait]; exact hne)
      (by rw [prepareConfig_RawBootWait]; exact hp)
  · intro e hp
    exact mem_prepareErrs_shutdown _ v e hp
  · intro e hp
    exact mem_prepareErrs_sshwait _ v e hp
  · intro e he
    subst he
    exact mem_prepareErrs_driver _ e

/-- C3 (witness): a configuration with an inverted HTTP range, missing
iso_url and ssh_username, a bad boot_wait, and a failed driver probe has
all five messages in the one aggregate result. -/
theorem c3_witness :
    (Prepare badConfig (some "boom")).config.HTTPPortMin >
      (Prepare badConfig (some "boom")).config.HTTPPortMax ∧
    PrepareReturn (Prepare badConfig (some "boom")) =
      some (Prepare badConfig (some "boom")).errs ∧
    httpPortRangeMsg ∈ (Prepare badConfig (some "boom")).errs ∧
    isoURLMsg ∈ (Prepare badConfig (some "boom")).errs ∧
    sshUserMsg ∈ (Prepare badConfig (some "boom")).errs ∧
    ("Failed parsing boot_wait: time: invalid duration zz") ∈
      (Prepare badConfig (some "boom")).errs ∧
    ("Failed creating VMware driver: boom") ∈ (Prepare badConfig (some "boom")).errs := by
  have T := c3_range_violation_aggregated badConfig (some "boom") (Or.inl (by decide))
  exact ⟨by decide, T.1, T.2.1 (by decide), T.2.2.2.1 rfl, T.2.2.2.2.1 rfl,
    T.2.2.2.2.2.1 "time: invalid duration zz" (by decide) (by decide),
    T.2.2.2.2.2.2.2.2 "boom" rfl⟩

/-- C4: an empty shutdown_timeout resolves to exactly 5 minutes and an
empty ssh_wait_timeout to exactly 20 minutes. -/
theorem c4_default_timeouts (c : config) (v : Option String) :
    (c.RawShutdownTimeout = "" → (Prepare c v).config.ShutdownTimeout = 5 * minute) ∧
    (c.RawSSHWaitTimeout = "" → (Prepare c v).config.SSHWaitTimeout = 20 * minute) := by
  constructor
  · intro h
    simp [Prepare, prepareConfig, applyDefaults, h]
    decide
  · intro h
    simp [Prepare, prepareConfig, applyDefaults, h]
    decide

/-- C4 (witness): both defaults at the all-absent configuration. -/
theorem c4_witness :
    (Prepare emptyConfig none).config.ShutdownTimeout = 5 * minute ∧
    (Prepare emptyConfig none).config.SSHWaitTimeout = 20 * minute :=
  ⟨(c4_default_timeouts emptyConfig none).1 rfl, (c4_default_timeouts emptyConfig none).2 rfl⟩

/-- C5 (counterexample): the claim that every duration accepted by
`Prepare` is non-negative is false: `Prepare` accepts boot_wait = -1s — a
valid duration string under the standard interpretation — and stores the
negative value. -/
theorem c5_counterexample :
    PrepareReturn (Prepare negativeBootConfig none) = none ∧
    parseDuration negativeBootConfig.RawBootWait =
      Except.ok (Prepare negativeBootConfig none).config.BootWait ∧
    (Prepare negativeBootConfig none).config.BootWait < 0 := by
  refine ⟨by decide, by decide, by decide⟩

/-- C5 (amended): for every configuration `Prepare` accepts, each duration
field that was parsed — boot wait when its raw text is non-empty, and the
two timeouts always — equals the standard interpretation of its (resolved)
textual value; non-negativity is not guaranteed. -/
theorem c5_accepted_durations_match_text (c : config) (v : Option String)
    (h : PrepareReturn (Prepare c v) = none) :
    (c.RawBootWait ≠ "" →
      parseDuration c.RawBootWait = Except.ok (Prepare c v).config.BootWait) ∧
    parseDuration (Prepare c v).config.RawShutdownTimeout =
      Except.ok (Prepare c v).config.ShutdownTimeout ∧
    parseDuration (Prepare c v).config.RawSSHWaitTimeout =
      Except.ok (Prepare c v).config.SSHWaitTimeout := by
  have herrs : prepareErrs (prepareConfig c) v = [] := by
    by_contra hne
    have hs : PrepareReturn (Prepare c v) = some (Prepare c v).errs := by
      unfold PrepareReturn
      rw [if_pos]
      exact List.length_pos.mpr hne
    rw [h] at hs
    exact Option.noConfusion hs
  unfold prepareErrs at herrs
  simp only [List.append_eq_nil] at herrs
  obtain ⟨⟨⟨⟨⟨⟨⟨h1, h2⟩, h3⟩, hboot⟩, hshut⟩, hsshw⟩, h7⟩, h8⟩ := herrs
  refine ⟨?_, ?_, ?_⟩
  · intro hne
    rw [prepareConfig_RawBootWait] at hboot
    rw [if_pos hne] at hboot
    show parseDuration c.RawBootWait = Except.ok (prepareConfig c).BootWait
    cases hp : parseDuration c.RawBootWait with
    | ok d =>
      rw [prepareConfig_BootWait c, if_pos hne, hp]
    | error e =>
      rw [hp] at hboot
      exact absurd hboot (by simp)
  · show parseDuration (prepareConfig c).RawShutdownTimeout =
      Except.ok (prepareConfig c).ShutdownTimeout
    cases hp : parseDuration (prepareConfig c).RawShutdownTimeout with
    | ok d =>
      rw [prepareConfig_ShutdownTimeout c, hp]
    | error e =>
      rw [hp] at hshut
      exact absurd hshut (by simp)
  · show parseDuration (prepareConfig c).RawSSHWaitTimeout =
      Except.ok (prepareConfig c).SSHWaitTimeout
    cases hp : parseDuration (prepareConfig c).RawSSHWaitTimeout with
    | ok d =>
      rw [prepareConfig_SSHWaitTimeout c, hp]
    | error e =>
      rw [hp] at hsshw
      exact absurd hsshw (by simp)

/-- C5 (witness): the amended statement at the minimal valid configuration. -/
theorem c5_amended_witness :
    PrepareReturn (Prepare validConfig none) = none ∧
    parseDuration (Prepare validConfig none).config.RawShutdownTimeout =
      Except.ok (Prepare validConfig none).config.ShutdownTimeout ∧
    parseDuration (Prepare validConfig none).config.RawSSHWaitTimeout =
      Except.ok (Prepare validConfig none).config.SSHWaitTimeout :=
  ⟨by decide, (c5_accepted_durations_match_text validConfig none (by decide)).2.1,
    (c5_accepted_durations_match_text validConfig none (by decide)).2.2⟩

/-- C6 (counterexample): the claim that a successful run over files a and
b/c under output directory d yields an artifact listing exactly d/a and
d/b/c is false: the visit callback appends every walked path, so the
artifact also lists the output directory d itself and the subdirectory
d/b. -/
theorem c6_counterexample :
    walkPaths "d" c6tree = ["d", "d/a", "d/b", "d/b/c"] ∧
    (Builder.Run dOutputBuilder trivialPipeline (Except.ok (walkPaths "d" c6tree))).2.artifact =
      some { dir := "d", files := ["d", "d/a", "d/b", "d/b/c"] } ∧
    ["d", "d/a", "d/b", "d/b/c"] ≠ ["d/a", "d/b/c"] := by
  refine ⟨?_, ?_, by decide⟩
  · decide
  · decide

/-- C6 (amended): a run that ends neither cancelled nor halted returns an
artifact pairing the output directory with exactly the paths the walk
visited, in walk order — which include the output directory itself and
every subdirectory, alongside the files. -/
theorem c6_artifact_lists_walked_paths (b : Builder) (steps : List Step) (t : FSNode)
    (h1 : (runForward steps initialState).1.cancelled = false)
    (h2 : (runForward steps initialState).1.halted = false) :
    (Builder.Run b steps (Except.ok (walkPaths b.config.OutputDir t))).2.artifact =
      some { dir := b.config.OutputDir, files := walkPaths b.config.OutputDir t } := by
  simp [Builder.Run, h1, h2]

/-- C6 (witness): the amended statement at the a, b/c tree under d. -/
theorem c6_amended_witness :
    (Builder.Run dOutputBuilder trivialPipeline
        (Except.ok (walkPaths dOutputBuilder.config.OutputDir c6tree))).2.artifact =
      some { dir := dOutputBuilder.config.OutputDir
             files := walkPaths dOutputBuilder.config.OutputDir c6tree } :=
  c6_artifact_lists_walked_paths dOutputBuilder trivialPipeline c6tree (by decide) (by decide)

/-- C7: `Prepare` binds exactly the `Fusion5Driver` probed at the fixed
installation path when verification succeeds; when verification fails, no
driver is bound, the failure is reported in the aggregated result,
`Prepare` returns the error, and the host's build never starts (zero steps
execute). -/
theorem c7_driver_binding (c : config) :
    (Prepare c none).driver = some { AppPath := fusionAppPath } ∧
    ∀ e : String,
      (Prepare c (some e)).driver = none ∧
      ("Failed creating VMware driver: " ++ e) ∈ (Prepare c (some e)).errs ∧
      PrepareReturn (Prepare c (some e)) = some (Prepare c (some e)).errs ∧
      ∀ (b : Builder) (steps : List Step) (walk : Except String (List String)),
        hostExecutedSteps (Prepare c (some e)) b steps walk = 0 := by
  refine ⟨rfl, fun e => ⟨rfl, ?_, ?_, ?_⟩⟩
  · exact mem_prepareErrs_driver _ e
  · exact PrepareReturn_of_mem _ _ (mem_prepareErrs_driver _ e)
  · intro b steps walk
    unfold hostExecutedSteps
    rw [PrepareReturn_of_mem _ _ (mem_prepareErrs_driver (prepareConfig c) e)]

/-- C8: `Cancel` is idempotent in every state of the build: with a nil
runner both calls are no-ops, and with a live runner the cancellation mark
is already set after the first call. -/
theorem c8_cancel_idempotent (b : Builder) :
    Builder.Cancel (Builder.Cancel b) = Builder.Cancel b := by
  rcases b with ⟨cfg, drv, rn⟩
  cases rn <;> rfl

/-- C9: a port bound explicitly set to 0 is replaced by its documented
default (8000, 9000, 5900, 6000), and no prepared configuration carries a
port bound equal to 0. -/
theorem c9_zero_port_bounds_defaulted (c : config) (v : Option String) :
    (c.HTTPPortMin = 0 → (Prepare c v).config.HTTPPortMin = 8000) ∧
    (c.HTTPPortMax = 0 → (Prepare c v).config.HTTPPortMax = 9000) ∧
    (c.VNCPortMin = 0 → (Prepare c v).config.VNCPortMin = 5900) ∧
    (c.VNCPortMax = 0 → (Prepare c v).config.VNCPortMax = 6000) ∧
    (Prepare c v).config.HTTPPortMin ≠ 0 ∧
    (Prepare c v).config.HTTPPortMax ≠ 0 ∧
    (Prepare c v).config.VNCPortMin ≠ 0 ∧
    (Prepare c v).config.VNCPortMax ≠ 0 := by
  have hmin : (Prepare c v).config.HTTPPortMin =
      (if c.HTTPPortMin = 0 then 8000 else c.HTTPPortMin) := rfl
  have hmax : (Prepare c v).config.HTTPPortMax =
      (if c.HTTPPortMax = 0 then 9000 else c.HTTPPortMax) := rfl
  have hvmin : (Prepare c v).config.VNCPortMin =
      (if c.VNCPortMin = 0 then 5900 else c.VNCPortMin) := rfl
  have hvmax : (Prepare c v).config.VNCPortMax =
      (if c.VNCPortMax = 0 then 6000 else c.VNCPortMax) := rfl
  rw [hmin, hmax, hvmin, hvmax]
  refine ⟨fun h => by simp [h], fun h => by simp [h], fun h => by simp [h], fun h => by simp [h],
    ?_, ?_, ?_, ?_⟩ <;> split <;> simp_all

/-- C9 (witness): all four defaults and a non-zero bound at the all-absent
configuration. -/
theorem c9_witness :
    emptyConfig.HTTPPortMin = 0 ∧
    (Prepare emptyConfig none).config.HTTPPortMin = 8000 ∧
    (Prepare emptyConfig none).config.HTTPPortMax = 9000 ∧
    (Prepare emptyConfig none).config.VNCPortMin = 5900 ∧
    (Prepare emptyConfig none).config.VNCPortMax = 6000 ∧
    (Prepare emptyConfig none).config.HTTPPortMin ≠ 0 :=
  ⟨rfl, (c9_zero_port_bounds_defaulted emptyConfig none).1 rfl,
    (c9_zero_port_bounds_defaulted emptyConfig none).2.1 rfl,
    (c9_zero_port_bounds_defaulted emptyConfig none).2.2.1 rfl,
    (c9_zero_port_bounds_defaulted emptyConfig none).2.2.2.1 rfl,
    (c9_zero_port_bounds_defaulted emptyConfig none).2.2.2.2.1⟩

/-- C10: even when the pipeline ends neither cancelled nor halted, a failed
walk of the output directory yields no artifact, and the walk error is
logged through the UI sink. -/
theorem c10_walk_error_returns_nil (b : Builder) (steps : List Step) (e : String)
    (h1 : (runForward steps initialState).1.cancelled = false)
    (h2 : (runForward steps initialState).1.halted = false) :
    (Builder.Run b steps (Except.error e)).2.artifact = none ∧
    (Builder.Run b steps (Except.error e)).2.uiErrors =
      ["Error collecting result files: " ++ e] := by
  simp [Builder.Run, h1, h2]

/-- C10 (witness): a missing output directory after a clean run. -/
theorem c10_witness :
    (Builder.Run freshBuilder trivialPipeline
        (Except.error "lstat vmware: no such file or directory")).2.artifact = none ∧
    (Builder.Run freshBuilder trivialPipeline
        (Except.error "lstat vmware: no such file or directory")).2.uiErrors =
      ["Error collecting result files: lstat vmware: no such file or directory"] :=
  c10_walk_error_returns_nil freshBuilder trivialPipeline _ (by decide) (by decide)
